import Mathlib

/-!
Verification development for the Apple TV ↔ MQTT bridge (`main.py`).

The bridge is embedded shallowly: every bridge function is translated into a
pure Lean function that returns the ordered list of observable effects
(`Eff`) it performs, together with an `Option String` modelling a Python
exception escaping the function (`none` = the function returns normally).
External collaborators (the pyatv device client, the paho MQTT client, the
process environment) are modelled as explicit environment records whose
fields say what the collaborator would answer and which of its calls raise;
the bridge code itself is translated statement by statement from the source.

Conventions:
* JSON values (`json.loads` results) are the inductive `JVal`; Python dicts
  are association lists in insertion order with unique keys, as produced by
  `json.loads`.
* A call to `execute_command` is recorded in its own trace as a leading
  `Eff.execCmd action kwargs` marker (the call with its arguments), a call
  to `mqtt_publish` as a leading `Eff.pub topic payload retain` marker; the
  remaining effects mirror the function body.
* Log messages are kept as short stable prefixes of the source's f-strings.
* `asyncio.sleep` durations are milliseconds (`0.3 s` = `300`).
-/

/-- JSON value, the result of `json.loads`. -/
inductive JVal where
  | null : JVal
  | bool : Bool → JVal
  | num : Int → JVal
  | str : String → JVal
  | arr : List JVal → JVal
  | obj : List (String × JVal) → JVal

mutual

/-- Decidable equality on `JVal` (the automatic deriving handler does not
support this nested inductive). -/
def JVal.decEq : (a b : JVal) → Decidable (a = b)
  | .null, .null => .isTrue rfl
  | .bool a, .bool b =>
    match Bool.decEq a b with
    | .isTrue h => .isTrue (by rw [h])
    | .isFalse h => .isFalse (by intro he; injection he; contradiction)
  | .num a, .num b =>
    match Int.decEq a b with
    | .isTrue h => .isTrue (by rw [h])
    | .isFalse h => .isFalse (by intro he; injection he; contradiction)
  | .str a, .str b =>
    match String.decEq a b with
    | .isTrue h => .isTrue (by rw [h])
    | .isFalse h => .isFalse (by intro he; injection he; contradiction)
  | .arr xs, .arr ys =>
    match JVal.decEqList xs ys with
    | .isTrue h => .isTrue (by rw [h])
    | .isFalse h => .isFalse (by intro he; injection he; contradiction)
  | .obj fs, .obj gs =>
    match JVal.decEqObj fs gs with
    | .isTrue h => .isTrue (by rw [h])
    | .isFalse h => .isFalse (by intro he; injection he; contradiction)
  | .null, .bool _ => .isFalse (fun h => JVal.noConfusion h)
  | .null, .num _ => .isFalse (fun h => JVal.noConfusion h)
  | .null, .str _ => .isFalse (fun h => JVal.noConfusion h)
  | .null, .arr _ => .isFalse (fun h => JVal.noConfusion h)
  | .null, .obj _ => .isFalse (fun h => JVal.noConfusion h)
  | .bool _, .null => .isFalse (fun h => JVal.noConfusion h)
  | .bool _, .num _ => .isFalse (fun h => JVal.noConfusion h)
  | .bool _, .str _ => .isFalse (fun h => JVal.noConfusion h)
  | .bool _, .arr _ => .isFalse (fun h => JVal.noConfusion h)
  | .bool _, .obj _ => .isFalse (fun h => JVal.noConfusion h)
  | .num _, .null => .isFalse (fun h => JVal.noConfusion h)
  | .num _, .bool _ => .isFalse (fun h => JVal.noConfusion h)
  | .num _, .str _ => .isFalse (fun h => JVal.noConfusion h)
  | .num _, .arr _ => .isFalse (fun h => JVal.noConfusion h)
  | .num _, .obj _ => .isFalse (fun h => JVal.noConfusion h)
  | .str _, .null => .isFalse (fun h => JVal.noConfusion h)
  | .str _, .bool _ => .isFalse (fun h => JVal.noConfusion h)
  | .str _, .num _ => .isFalse (fun h => JVal.noConfusion h)
  | .str _, .arr _ => .isFalse (fun h => JVal.noConfusion h)
  | .str _, .obj _ => .isFalse (fun h => JVal.noConfusion h)
  | .arr _, .null => .isFalse (fun h => JVal.noConfusion h)
  | .arr _, .bool _ => .isFalse (fun h => JVal.noConfusion h)
  | .arr _, .num _ => .isFalse (fun h => JVal.noConfusion h)
  | .arr _, .str _ => .isFalse (fun h => JVal.noConfusion h)
  | .arr _, .obj _ => .isFalse (fun h => JVal.noConfusion h)
  | .obj _, .null => .isFalse (fun h => JVal.noConfusion h)
  | .obj _, .bool _ => .isFalse (fun h => JVal.noConfusion h)
  | .obj _, .num _ => .isFalse (fun h => JVal.noConfusion h)
  | .obj _, .str _ => .isFalse (fun h => JVal.noConfusion h)
  | .obj _, .arr _ => .isFalse (fun h => JVal.noConfusion h)

/-- Decidable equality on lists of `JVal`. -/
def JVal.decEqList : (a b : List JVal) → Decidable (a = b)
  | [], [] => .isTrue rfl
  | [], _ :: _ => .isFalse (fun h => List.noConfusion h)
  | _ :: _, [] => .isFalse (fun h => List.noConfusion h)
  | x :: xs, y :: ys =>
    match JVal.decEq x y with
    | .isFalse h => .isFalse (by intro he; injection he; contradiction)
    | .isTrue h1 =>
      match JVal.decEqList xs ys with
      | .isTrue h2 => .isTrue (by rw [h1, h2])
      | .isFalse h => .isFalse (by intro he; injection he; contradiction)

/-- Decidable equality on `JVal` object field lists. -/
def JVal.decEqObj : (a b : List (String × JVal)) → Decidable (a = b)
  | [], [] => .isTrue rfl
  | [], _ :: _ => .isFalse (fun h => List.noConfusion h)
  | _ :: _, [] => .isFalse (fun h => List.noConfusion h)
  | (k, v) :: xs, (l, w) :: ys =>
    match String.decEq k l with
    | .isFalse h => .isFalse (by intro he; injection he with h1 h2; exact h (congrArg Prod.fst h1))
    | .isTrue hk =>
      match JVal.decEq v w with
      | .isFalse h => .isFalse (by intro he; injection he with h1 h2; exact h (congrArg Prod.snd h1))
      | .isTrue hv =>
        match JVal.decEqObj xs ys with
        | .isTrue h2 => .isTrue (by rw [hk, hv, h2])
        | .isFalse h => .isFalse (by intro he; injection he; contradiction)

end

instance : DecidableEq JVal := JVal.decEq

/-- Python truthiness of a JSON value (`if action:` etc.). -/
def JVal.truthy : JVal → Bool
  | .null => false
  | .bool b => b
  | .num n => n != 0
  | .str s => s != ""
  | .arr xs => !xs.isEmpty
  | .obj fs => !fs.isEmpty

/-- `d.get(k)` on a Python dict: first binding of `k`, if any. -/
def jGet (fields : List (String × JVal)) (k : String) : Option JVal :=
  (fields.find? (fun f => f.1 == k)).map (·.2)

/-- `d.get(k, default)` on a Python dict. -/
def jGetD (fields : List (String × JVal)) (k : String) (d : JVal) : JVal :=
  (jGet fields k).getD d

/-- `d.pop(k, None)`: the removed value (if present) and the remaining dict. -/
def jPop (fields : List (String × JVal)) (k : String) :
    Option JVal × List (String × JVal) :=
  (jGet fields k, fields.filter (fun f => !(f.1 == k)))

/-- `s.split('.')[-1]`, used to shorten `str(enum)` renderings. -/
def lastComp (s : String) : String := (s.splitOn ".").getLastD s

/-- Python iteration over a JSON value (`for cmd in commands`): lists yield
their elements, strings their characters (as 1-character strings), dicts
their keys; other values are not iterable. -/
def iterElems : JVal → List JVal
  | .arr xs => xs
  | .str s => s.data.map (fun ch => JVal.str (String.mk [ch]))
  | .obj fs => fs.map (fun f => JVal.str f.1)
  | _ => []

/-- Whether `for _ in v` succeeds (otherwise Python raises `TypeError`). -/
def iterable : JVal → Bool
  | .arr _ => true
  | .str _ => true
  | .obj _ => true
  | _ => false

/-- Serialization in the spirit of `json.dumps` (insertion order kept). -/
def dumps : JVal → String
  | .null => "null"
  | .bool true => "true"
  | .bool false => "false"
  | .num n => toString n
  | .str s => "\"" ++ s ++ "\""
  | .arr xs => "[" ++ String.intercalate ", " (xs.attach.map (fun ⟨x, hx⟩ => dumps x)) ++ "]"
  | .obj fs => "\x7b" ++
      String.intercalate ", "
        (fs.attach.map (fun ⟨f, hf⟩ => "\"" ++ f.1 ++ "\": " ++ dumps f.2)) ++ "\x7d"
decreasing_by
  · have := List.sizeOf_lt_of_mem hx
    simp only [JVal.arr.sizeOf_spec]
    omega
  · have := List.sizeOf_lt_of_mem hf
    have h2 : sizeOf f.2 < sizeOf f := by
      cases f with
      | mk a b => simp
    simp only [JVal.obj.sizeOf_spec]
    omega

/-- One observable effect of the bridge. -/
inductive Eff where
  /-- A call of `execute_command(action, **kwargs)` with its arguments. -/
  | execCmd (action : JVal) (kwargs : List (String × JVal))
  /-- An awaited call into the pyatv device client (`rc.up()`, `metadata.playing()`, …). -/
  | devCall (name : String) (arg : Option JVal)
  /-- `await asyncio.sleep` of the given number of milliseconds. -/
  | sleep (ms : Nat)
  /-- A call of the bridge helper `mqtt_publish(topic, payload, retain)`. -/
  | pub (topic payload : String) (retain : Bool)
  /-- A raw `client.publish(topic, payload, qos, retain)` on the paho client. -/
  | send (topic payload : String) (qos : Nat) (retain : Bool)
  /-- `client.subscribe(topic, qos)`. -/
  | subscribe (topic : String) (qos : Nat)
  /-- `client.will_set(topic, payload, qos, retain)`. -/
  | willSet (topic payload : String) (qos : Nat) (retain : Bool)
  | logDebug (msg : String)
  | logInfo (msg : String)
  | logWarn (msg : String)
  | logError (msg : String)
  /-- `task.cancel()` on the i-th scheduler task. -/
  | cancelTask (i : Nat)
  /-- `await asyncio.gather(*tasks, return_exceptions=True)`. -/
  | awaitTasks
  /-- `atv.close()`. -/
  | atvClose
  /-- `mqtt_client.loop_stop()`. -/
  | mqttLoopStop
  /-- `mqtt_client.disconnect()`. -/
  | mqttDisconnect
  deriving DecidableEq

/-- The configuration fields the modelled functions read (class `Config`). -/
structure Cfg where
  mqtt_base_topic : String
  mqtt_qos : Nat
  state_update_interval : Nat
  apps_update_interval : Nat
  deriving DecidableEq, Repr

def Cfg.topic_availability (c : Cfg) : String := c.mqtt_base_topic ++ "/availability"

def Cfg.topic_state (c : Cfg) : String := c.mqtt_base_topic ++ "/state"

def Cfg.topic_apps (c : Cfg) : String := c.mqtt_base_topic ++ "/apps"

def Cfg.topic_set (c : Cfg) : String := c.mqtt_base_topic ++ "/set"

def Cfg.topic_get (c : Cfg) : String := c.mqtt_base_topic ++ "/get"

/-- State of the paho MQTT client as the bridge observes it. -/
structure MqttEnv where
  /-- `mqtt_client and mqtt_client.is_connected()`. -/
  connected : Bool
  /-- whether `mqtt_client.publish` raises. -/
  publishRaises : Bool
  /-- `config.mqtt_qos` as used by the publish calls. -/
  qos : Nat
  deriving DecidableEq, Repr

/-- `mqtt_publish(topic, payload, retain)` — lines 212-221 of `main.py`.
The head `Eff.pub` marker records the call; the body publishes once at the
configured QoS when connected, otherwise logs a warning and skips; any
exception from the send is caught and logged, never re-raised. -/
def mqtt_publish (m : MqttEnv) (topic payload : String) (retain : Bool) :
    List Eff × Option String :=
  let body : List Eff × Option String :=
    if m.connected then
      if m.publishRaises then
        ([Eff.send topic payload m.qos retain], some "publish failed")
      else
        ([Eff.send topic payload m.qos retain, Eff.logDebug "Published"], none)
    else
      ([Eff.logWarn "MQTT client not connected, skipping publish"], none)
  match body with
  | (t, some _) => (Eff.pub topic payload retain :: (t ++ [Eff.logError "Error publishing to MQTT"]), none)
  | (t, none) => (Eff.pub topic payload retain :: t, none)

/-- The fields of the pyatv `Playing` object that `get_state` reads.
Enum-valued fields (`media_type`, `device_state`, `repeat`, `shuffle`) are
modelled as the `str(enum)` rendering when the attribute is truthy, `none`
when it is falsy/absent; plain fields are the value or `None`. -/
structure Playing where
  media_type : Option String
  device_state : Option String
  title : Option String
  artist : Option String
  album : Option String
  genre : Option String
  position : Option Int
  total_time : Option Int
  repeat_mode : Option String
  shuffle : Option String

/-- State of the pyatv device client as the bridge observes it: whether a
session object exists (`atv`), which capabilities it has, what its queries
answer and which of its calls raise. -/
structure DevEnv where
  /-- whether the global `atv` session object is set. -/
  atvPresent : Bool
  /-- whether `await atv.metadata.playing()` raises. -/
  playingRaises : Bool
  playing : Playing
  /-- whether reading `atv.metadata.app` raises. -/
  appRaises : Bool
  /-- `atv.metadata.app`: (name, identifier) or `None`. -/
  app : Option (String × String)
  /-- `hasattr(atv, 'power') and atv.power`. -/
  hasPower : Bool
  /-- `str(atv.power.power_state)`. -/
  power_state : String
  /-- `hasattr(atv, 'apps') and atv.apps`. -/
  hasApps : Bool
  /-- whether `await atv.apps.app_list()` raises. -/
  appListRaises : Bool
  /-- the app list as (name, identifier) pairs. -/
  app_list : List (String × String)
  /-- `hasattr(atv, 'stream') and atv.stream`. -/
  hasStream : Bool
  /-- whether the device call with the given method name raises. -/
  callRaises : String → Bool

/-- One awaited remote-control call (`rc.up()`, …): the device call effect,
the exception if the environment says this call raises, no early return. -/
def rcCall (env : DevEnv) (n : String) : List Eff × Option String × Bool :=
  ([Eff.devCall n none], if env.callRaises n then some (n ++ " failed") else none, false)

/-- One guarded power call (`if hasattr(atv, 'power') and atv.power: await atv.power.m()`). -/
def powerCall (env : DevEnv) (n : String) : List Eff × Option String × Bool :=
  if env.hasPower then
    ([Eff.devCall n none], if env.callRaises n then some (n ++ " failed") else none, false)
  else ([], none, false)

/-- The tail of `execute_command` shared by every action branch: the
`logger.info` after the `if` chain (line 426, skipped by the unknown-action
early `return`), the `except Exception` clause (lines 428-430) turning a
raised exception into an error log, and the leading `Eff.execCmd` call
marker.  The `Bool` flag of the body result records the early return. -/
def finish_cmd (action : JVal) (kwargs : List (String × JVal)) :
    List Eff × Option String × Bool → List Eff × Option String
  | (t, some e, _) =>
    (Eff.execCmd action kwargs :: (t ++ [Eff.logError ("Error executing command: " ++ e)]), none)
  | (t, none, true) => (Eff.execCmd action kwargs :: t, none)
  | (t, none, false) =>
    (Eff.execCmd action kwargs :: (t ++ [Eff.logInfo "Executed command"]), none)

/-- `execute_command(action, **kwargs)` — lines 350-430 of `main.py`.

Returns the effect trace (headed by the `Eff.execCmd` marker recording the
call and its arguments) and the exception escaping to the caller, which is
always `none`: the body's `try`/`except Exception` catches everything.  The
`action` parameter is kept as a `JVal` because the dispatcher passes the raw
decoded field; a non-string action compares unequal to every action name
and falls into the unknown-action branch, exactly as Python `==` would. -/
def execute_command (env : DevEnv) (action : JVal) (kwargs : List (String × JVal)) :
    List Eff × Option String :=
  if !env.atvPresent then
    ([Eff.execCmd action kwargs, Eff.logWarn "Apple TV not connected, cannot execute command"], none)
  else
    let body : List Eff × Option String × Bool :=
      if action = JVal.str "up" then rcCall env "up"
      else if action = JVal.str "down" then rcCall env "down"
      else if action = JVal.str "left" then rcCall env "left"
      else if action = JVal.str "right" then rcCall env "right"
      else if action = JVal.str "select" then rcCall env "select"
      else if action = JVal.str "menu" then rcCall env "menu"
      else if action = JVal.str "home" then rcCall env "home"
      else if action = JVal.str "play" then rcCall env "play"
      else if action = JVal.str "pause" then rcCall env "pause"
      else if action = JVal.str "play_pause" then rcCall env "play_pause"
      else if action = JVal.str "stop" then rcCall env "stop"
      else if action = JVal.str "next" then rcCall env "next"
      else if action = JVal.str "previous" then rcCall env "previous"
      else if action = JVal.str "turn_on" then powerCall env "turn_on"
      else if action = JVal.str "turn_off" then powerCall env "turn_off"
      else if action = JVal.str "wakeup" then powerCall env "turn_on"
      else if action = JVal.str "suspend" then powerCall env "turn_off"
      else if action = JVal.str "launch_app" then
        let app_id := jGet kwargs "app_id"
        if (app_id.getD JVal.null).truthy && env.hasApps then
          ([Eff.devCall "launch_app" app_id],
           if env.callRaises "launch_app" then some "launch_app failed" else none, false)
        else ([], none, false)
      else if action = JVal.str "play_url" then
        let url := jGet kwargs "url"
        if (url.getD JVal.null).truthy && env.hasStream then
          ([Eff.devCall "play_url" url],
           if env.callRaises "play_url" then some "play_url failed" else none, false)
        else ([], none, false)
      else if action = JVal.str "multi" then
        if iterable ((jGet kwargs "commands").getD (JVal.arr [])) then
          (((iterElems ((jGet kwargs "commands").getD (JVal.arr []))).attach.map
              (fun c => (execute_command env c.1 []).1 ++ [Eff.sleep 300])).flatten,
           none, false)
        else ([], some "TypeError: not iterable", false)
      else ([Eff.logWarn "Unknown action"], none, true)
    finish_cmd action kwargs body
termination_by kwargs.length
decreasing_by
  simp only [List.length_nil]
  cases kwargs with
  | nil =>
    have hc := c.2
    simp [jGet, iterElems] at hc
  | cons a l => simp

/-- The `state` dict as initialized at the top of `get_state` (lines 275-289):
every field present with value `None`. -/
def empty_state : List (String × JVal) :=
  [("media_type", JVal.null), ("device_state", JVal.null), ("title", JVal.null),
   ("artist", JVal.null), ("album", JVal.null), ("genre", JVal.null),
   ("position", JVal.null), ("total_time", JVal.null), ("repeat", JVal.null),
   ("shuffle", JVal.null), ("app", JVal.null), ("app_id", JVal.null),
   ("power_state", JVal.null)]

/-- `str(x).split('.')[-1] if x else None` for an enum-like attribute. -/
def optEnum : Option String → JVal
  | some s => JVal.str (lastComp s)
  | none => JVal.null

/-- A plain string-or-None attribute. -/
def optStr : Option String → JVal
  | some s => JVal.str s
  | none => JVal.null

/-- A plain number-or-None attribute. -/
def optInt : Option Int → JVal
  | some n => JVal.num n
  | none => JVal.null

/-- The `try:` body of `get_state` (lines 291-321): effect trace, the `state`
dict at the point the body ends or the exception fires, and the exception.
When `atv.metadata.playing()` raises, no field has been overwritten yet, so
the dict is still `empty_state`. -/
def get_state_try (env : DevEnv) : List Eff × List (String × JVal) × Option String :=
  if !env.atvPresent then ([], empty_state, none)
  else if env.playingRaises then
    ([Eff.devCall "metadata.playing" none], empty_state, some "playing failed")
  else
    ([Eff.devCall "metadata.playing" none, Eff.logDebug "State"],
     [("media_type", optEnum env.playing.media_type),
      ("device_state", optEnum env.playing.device_state),
      ("title", optStr env.playing.title),
      ("artist", optStr env.playing.artist),
      ("album", optStr env.playing.album),
      ("genre", optStr env.playing.genre),
      ("position", optInt env.playing.position),
      ("total_time", optInt env.playing.total_time),
      ("repeat", optEnum env.playing.repeat_mode),
      ("shuffle", optEnum env.playing.shuffle),
      ("app", if env.appRaises then JVal.null else optStr (env.app.map (·.1))),
      ("app_id", if env.appRaises then JVal.null else optStr (env.app.map (·.2))),
      ("power_state", if env.hasPower then JVal.str (lastComp env.power_state) else JVal.null)],
     none)

/-- `get_state()` — lines 273-327 of `main.py`.  The catch-all `except`
logs and the function returns the `state` dict in all cases; no exception
ever escapes, hence the plain (exception-free) return type. -/
def get_state (env : DevEnv) : List Eff × List (String × JVal) :=
  match get_state_try env with
  | (t, s, some _) => (t ++ [Eff.logError "Error getting state"], s)
  | (t, s, none) => (t, s)

/-- The `try:` body of `get_apps` (lines 334-341). -/
def get_apps_try (env : DevEnv) : List Eff × List JVal × Option String :=
  if !env.atvPresent || !env.hasApps then ([], [], none)
  else if env.appListRaises then
    ([Eff.devCall "apps.app_list" none], [], some "app_list failed")
  else
    ([Eff.devCall "apps.app_list" none, Eff.logDebug "Apps"],
     env.app_list.map (fun a => JVal.obj [("name", JVal.str a.1), ("id", JVal.str a.2)]),
     none)

/-- `get_apps()` — lines 330-347 of `main.py`; same fail-soft shape as
`get_state`. -/
def get_apps (env : DevEnv) : List Eff × List JVal :=
  match get_apps_try env with
  | (t, a, some _) => (t ++ [Eff.logError "Error getting apps"], a)
  | (t, a, none) => (t, a)

/-- One iteration of the `task_state_update` loop body (lines 441-449):
fetch state, publish it non-retained, sleep the configured interval. -/
def task_state_update_iter (cfg : Cfg) (m : MqttEnv) (env : DevEnv) : List Eff :=
  (get_state env).1
    ++ (mqtt_publish m cfg.topic_state (dumps (JVal.obj (get_state env).2)) false).1
    ++ [Eff.sleep (cfg.state_update_interval * 1000)]

/-- One iteration of the `task_apps_update` loop body (lines 456-464):
fetch the app list, publish it retained, sleep the configured interval. -/
def task_apps_update_iter (cfg : Cfg) (m : MqttEnv) (env : DevEnv) : List Eff :=
  (get_apps env).1
    ++ (mqtt_publish m cfg.topic_apps (dumps (JVal.arr (get_apps env).2)) true).1
    ++ [Eff.sleep (cfg.apps_update_interval * 1000)]

/-- Processing of one dequeued message inside `task_command_handler`
(lines 479-506 of `main.py`).  `decoded` is the result of `json.loads` on
the payload, `none` when decoding failed.  The returned exception is the one
escaping to the surrounding loop body (only possible when the payload is
valid JSON but not an object, so that `data.pop` / `data.get` raise
`AttributeError`). -/
def task_command_handler_msg (cfg : Cfg) (m : MqttEnv) (env : DevEnv)
    (topic : String) (decoded : Option JVal) : List Eff × Option String :=
  match decoded with
  | none => ([Eff.logWarn "Invalid JSON in command"], none)
  | some data =>
    if topic = cfg.topic_set then
      match data with
      | .obj fields =>
        match jPop fields "action" with
        | (some a, rest) => if a.truthy then execute_command env a rest else ([], none)
        | (none, _) => ([], none)
      | _ => ([], some "AttributeError: pop")
    else if topic = cfg.topic_get then
      match data with
      | .obj fields =>
        ((if jGetD fields "type" (JVal.str "all") = JVal.str "state"
              ∨ jGetD fields "type" (JVal.str "all") = JVal.str "all" then
            (get_state env).1
              ++ (mqtt_publish m cfg.topic_state (dumps (JVal.obj (get_state env).2)) false).1
          else [])
          ++ (if jGetD fields "type" (JVal.str "all") = JVal.str "apps"
                ∨ jGetD fields "type" (JVal.str "all") = JVal.str "all" then
              (get_apps env).1
                ++ (mqtt_publish m cfg.topic_apps (dumps (JVal.arr (get_apps env).2)) true).1
            else [])
          ++ [Eff.logInfo "Forced update"], none)
      | _ => ([], some "AttributeError: get")
    else ([], none)

/-- One loop iteration of `task_command_handler` around a dequeued message:
the surrounding `try`/`except` (lines 471-510) logs any escaping error and
the loop continues. -/
def task_command_handler_step (cfg : Cfg) (m : MqttEnv) (env : DevEnv)
    (topic : String) (decoded : Option JVal) : List Eff :=
  match task_command_handler_msg cfg m env topic decoded with
  | (t, some _) => t ++ [Eff.logError "Error in command handler"]
  | (t, none) => t

/-- `on_mqtt_connect` (lines 137-148): on success subscribe to the two
command topics and publish a retained "online" availability message;
otherwise log the failure. -/
def on_mqtt_connect (cfg : Cfg) (m : MqttEnv) (reason_code : Nat) : List Eff :=
  if reason_code = 0 then
    [Eff.logInfo "Connected to MQTT broker",
     Eff.subscribe cfg.topic_set m.qos,
     Eff.subscribe cfg.topic_get m.qos,
     Eff.logInfo "Subscribed",
     Eff.send cfg.topic_availability "online" m.qos true]
  else [Eff.logError "Failed to connect to MQTT broker"]

/-- The last-will registered by `setup_mqtt` (line 189): a retained
"offline" on the availability topic. -/
def setup_mqtt_will (cfg : Cfg) (m : MqttEnv) : Eff :=
  Eff.willSet cfg.topic_availability "offline" m.qos true

/-- The early-exit path of `main` when the first Apple TV connection fails
(lines 554-559): direct retained "offline" publish on the raw client, then
loop_stop and disconnect. -/
def appletv_connect_failure_shutdown (cfg : Cfg) (m : MqttEnv) : List Eff :=
  [Eff.logError "Could not connect to Apple TV, exiting",
   Eff.send cfg.topic_availability "offline" m.qos true,
   Eff.mqttLoopStop, Eff.mqttDisconnect]

/-- The graceful-shutdown tail of `main` (lines 571-596), entered after
`shutdown_event.wait()` returns: cancel the three scheduler tasks, await
them, publish "offline" retained via `mqtt_publish`, close the device
session if one exists, stop and disconnect the MQTT client. -/
def shutdown_sequence (cfg : Cfg) (m : MqttEnv) (env : DevEnv) : List Eff :=
  [Eff.logInfo "Shutting down",
   Eff.cancelTask 0, Eff.cancelTask 1, Eff.cancelTask 2,
   Eff.awaitTasks]
  ++ (mqtt_publish m cfg.topic_availability "offline" true).1
  ++ (if env.atvPresent then [Eff.atvClose, Eff.logInfo "Apple TV connection closed"] else [])
  ++ [Eff.mqttLoopStop, Eff.mqttDisconnect,
      Eff.logInfo "MQTT disconnected", Eff.logInfo "Shutdown complete"]

/-- `Config.REQUIRED_VARS` (lines 30-36 of `main.py`); note that
`LOG_LEVEL` is listed. -/
def REQUIRED_VARS : List String :=
  ["MQTT_HOST", "MQTT_PORT", "MQTT_USER", "MQTT_PASSWORD", "MQTT_QOS", "MQTT_BASE_TOPIC",
   "APPLETV_ID", "APPLETV_CREDENTIALS", "APPLETV_ADDRESS",
   "STATE_UPDATE_INTERVAL", "APPS_UPDATE_INTERVAL",
   "MQTT_RECONNECT_DELAY", "APPLETV_RECONNECT_DELAY",
   "LOG_LEVEL"]

/-- `not os.getenv(var)`: a variable counts as missing when unset or set to
the empty string (Python falsiness of `None` and `""`). -/
def envTruthy (env : String → Option String) (v : String) : Bool :=
  match env v with
  | none => false
  | some s => s != ""

/-- The `missing` list computed by `Config._validate` (line 45). -/
def missingVars (env : String → Option String) : List String :=
  REQUIRED_VARS.filter (fun v => !envTruthy env v)

/-- Whether `Config._validate` calls `sys.exit(1)` (lines 46-49): exactly
when `missing` is non-empty. -/
def validate_exits (env : String → Option String) : Bool :=
  !(missingVars env).isEmpty

/-- `self.log_level = os.getenv('LOG_LEVEL', 'INFO').upper()` (line 75). -/
def load_log_level (env : String → Option String) : String :=
  ((env "LOG_LEVEL").getD "INFO").toUpper

/-- Appending distinct suffixes to the same base yields distinct strings
(used for the five `<base>/<suffix>` topics). -/
theorem append_ne_append (b : String) {s t : String} (h : s ≠ t) : b ++ s ≠ b ++ t := by
  intro he
  apply h
  have hd : (b ++ s).data = (b ++ t).data := congrArg String.data he
  simp [String.data_append] at hd
  exact String.ext hd

theorem topic_availability_ne_apps (cfg : Cfg) : cfg.topic_availability ≠ cfg.topic_apps :=
  append_ne_append _ (by decide)

theorem topic_availability_ne_state (cfg : Cfg) : cfg.topic_availability ≠ cfg.topic_state :=
  append_ne_append _ (by decide)

theorem topic_apps_ne_state (cfg : Cfg) : cfg.topic_apps ≠ cfg.topic_state :=
  append_ne_append _ (by decide)

theorem topic_get_ne_set (cfg : Cfg) : cfg.topic_get ≠ cfg.topic_set :=
  append_ne_append _ (by decide)

theorem topic_state_ne_availability (cfg : Cfg) : cfg.topic_state ≠ cfg.topic_availability :=
  (topic_availability_ne_state cfg).symm

theorem topic_state_ne_apps (cfg : Cfg) : cfg.topic_state ≠ cfg.topic_apps :=
  (topic_apps_ne_state cfg).symm

theorem topic_apps_ne_availability (cfg : Cfg) : cfg.topic_apps ≠ cfg.topic_availability :=
  (topic_availability_ne_apps cfg).symm

/-- The `mqtt_publish` invocations recorded in a trace. -/
def pubs (t : List Eff) : List (String × String × Bool) :=
  t.filterMap fun e =>
    match e with
    | .pub a b c => some (a, b, c)
    | _ => none

/-- The raw `client.publish` sends recorded in a trace. -/
def sends (t : List Eff) : List (String × String × Nat × Bool) :=
  t.filterMap fun e =>
    match e with
    | .send a b q r => some (a, b, q, r)
    | _ => none

/-- The device-client calls recorded in a trace. -/
def devCalls (t : List Eff) : List (String × Option JVal) :=
  t.filterMap fun e =>
    match e with
    | .devCall n a => some (n, a)
    | _ => none

theorem pubs_append (a b : List Eff) : pubs (a ++ b) = pubs a ++ pubs b := by
  simp [pubs]

theorem sends_append (a b : List Eff) : sends (a ++ b) = sends a ++ sends b := by
  simp [sends]

theorem devCalls_append (a b : List Eff) : devCalls (a ++ b) = devCalls a ++ devCalls b := by
  simp [devCalls]

/-- C7: every call of `mqtt_publish(topic, payload, retain)` returns
normally (never raises to its caller); when the bus client is not connected
it performs no send and only logs a warning; when connected it performs
exactly one send, at the configured quality-of-service level, with the given
topic, payload and retain flag. -/
theorem c7_mqtt_publish_contract (m : MqttEnv) (topic payload : String) (retain : Bool) :
    (mqtt_publish m topic payload retain).2 = none
    ∧ (m.connected = false →
        (mqtt_publish m topic payload retain).1 =
          [Eff.pub topic payload retain,
           Eff.logWarn "MQTT client not connected, skipping publish"])
    ∧ (m.connected = true →
        sends (mqtt_publish m topic payload retain).1 = [(topic, payload, m.qos, retain)]) := by
  unfold mqtt_publish
  cases hc : m.connected <;> cases hp : m.publishRaises <;> simp [sends]

/-- Witness for C7 at concrete inputs: a disconnected client skips with a
warning; a connected one sends once at the configured QoS. -/
theorem c7_witness :
    (mqtt_publish ⟨false, false, 1⟩ "t" "p" false).1 =
      [Eff.pub "t" "p" false, Eff.logWarn "MQTT client not connected, skipping publish"]
    ∧ sends (mqtt_publish ⟨true, false, 1⟩ "t" "p" true).1 = [("t", "p", 1, true)] :=
  ⟨(c7_mqtt_publish_contract ⟨false, false, 1⟩ "t" "p" false).2.1 rfl,
   (c7_mqtt_publish_contract ⟨true, false, 1⟩ "t" "p" true).2.2 rfl⟩

/-- C3: whenever `atv.metadata.playing()` raises inside `get_state`, the
function returns the default snapshot with every one of its thirteen fields
null; the exception is raised inside the `try` body (third conjunct) but is
caught there and never propagated — `get_state` returns a plain value. -/
theorem c3_get_state_fail_soft (env : DevEnv)
    (h1 : env.atvPresent = true) (h2 : env.playingRaises = true) :
    (get_state env).2 = empty_state
    ∧ (∀ kv ∈ (get_state env).2, kv.2 = JVal.null)
    ∧ (get_state_try env).2.2.isSome = true := by
  unfold get_state get_state_try
  simp [h1, h2, empty_state]

/-- A device environment in which a session exists but the playback-state
call raises. -/
def devEnvPlayingFails : DevEnv :=
  ⟨true, true, ⟨none, none, none, none, none, none, none, none, none, none⟩,
   false, none, false, "", false, false, [], false, fun _ => false⟩

/-- Witness for C3 at a concrete environment. -/
theorem c3_witness :
    (get_state devEnvPlayingFails).2 = empty_state
    ∧ (∀ kv ∈ (get_state devEnvPlayingFails).2, kv.2 = JVal.null)
    ∧ (get_state_try devEnvPlayingFails).2.2.isSome = true :=
  c3_get_state_fail_soft devEnvPlayingFails rfl rfl

/-- An environment in which every required variable except `LOG_LEVEL` is
set (to "x") and `LOG_LEVEL` is unset. -/
def envNoLogLevel : String → Option String :=
  fun v => if v = "LOG_LEVEL" then none else if v ∈ REQUIRED_VARS then some "x" else none

/-- Counterexample to C5: `LOG_LEVEL` is listed in `REQUIRED_VARS`
(line 35 of `main.py`), so with every other required key set and `LOG_LEVEL`
unset, validation exits fatally listing exactly `LOG_LEVEL` — the claim says
validation succeeds here.  The loader default (`'INFO'`, line 75) is dead
code on this path because `_validate` runs first. -/
theorem c5_log_level_required_cex :
    validate_exits envNoLogLevel = true
    ∧ missingVars envNoLogLevel = ["LOG_LEVEL"]
    ∧ load_log_level envNoLogLevel = "INFO".toUpper := by
  refine ⟨by decide, by decide, rfl⟩

/-- C5 as amended: startup validation fails fatally (with the listing of
missing keys) exactly when some required key — `LOG_LEVEL` included — is
unset or empty, and the `missing` listing contains precisely the required
keys that are unset or empty. -/
theorem c5_validate_amended (env : String → Option String) :
    (validate_exits env = false ↔ ∀ v ∈ REQUIRED_VARS, envTruthy env v = true)
    ∧ ("LOG_LEVEL" ∈ REQUIRED_VARS)
    ∧ (∀ v, v ∈ missingVars env ↔ (v ∈ REQUIRED_VARS ∧ envTruthy env v = false)) := by
  refine ⟨?_, by decide, ?_⟩
  · simp [validate_exits, missingVars, List.isEmpty_iff, List.filter_eq_nil_iff]
  · intro v
    simp [missingVars, List.mem_filter]

/-- An environment with every variable set. -/
def envAllSet : String → Option String := fun _ => some "x"

/-- Witness for the amended C5: with every required key set, validation
does not exit. -/
theorem c5_witness : validate_exits envAllSet = false :=
  (c5_validate_amended envAllSet).1.mpr (fun _ _ => rfl)

theorem finish_cmd_snd (action : JVal) (kwargs : List (String × JVal))
    (b : List Eff × Option String × Bool) : (finish_cmd action kwargs b).2 = none := by
  rcases b with ⟨t, e, r⟩
  cases e <;> cases r <;> rfl

/-- `execute_command` never lets an exception escape: the `except Exception`
clause (via `finish_cmd`) converts every raised exception into a log. -/
theorem exec_snd_none (env : DevEnv) (a : JVal) (kw : List (String × JVal)) :
    (execute_command env a kw).2 = none := by
  cases hA : env.atvPresent with
  | false => rw [execute_command, if_pos (by simp [hA])]
  | true =>
    rw [execute_command, if_neg (by simp [hA])]
    apply finish_cmd_snd

/-- Unfolding of the `multi` branch: with a device session, a `multi`
command with a command list runs `execute_command(cmd)` for each element in
order — each with empty kwargs — with the 0.3 s pause after every step,
then logs completion. -/
theorem exec_multi_unfold (env : DevEnv) (h : env.atvPresent = true)
    (kwargs : List (String × JVal)) (cmds : List JVal)
    (hcmd : jGet kwargs "commands" = some (JVal.arr cmds)) :
    execute_command env (JVal.str "multi") kwargs =
      (Eff.execCmd (JVal.str "multi") kwargs ::
        ((cmds.map (fun c => (execute_command env c []).1 ++ [Eff.sleep 300])).flatten
          ++ [Eff.logInfo "Executed command"]), none) := by
  conv_lhs => rw [execute_command]
  rw [if_neg (by simp [h]),
      if_neg (by decide), if_neg (by decide), if_neg (by decide), if_neg (by decide),
      if_neg (by decide), if_neg (by decide), if_neg (by decide), if_neg (by decide),
      if_neg (by decide), if_neg (by decide), if_neg (by decide), if_neg (by decide),
      if_neg (by decide), if_neg (by decide), if_neg (by decide), if_neg (by decide),
      if_neg (by decide), if_neg (by decide), if_neg (by decide), if_pos rfl, hcmd,
      if_pos (by rfl)]
  rw [List.attach_map_val (iterElems ((some (JVal.arr cmds)).getD (JVal.arr [])))
        (fun x => (execute_command env x []).1 ++ [Eff.sleep 300])]
  simp only [finish_cmd]
  rfl

/-- C2: with a device session, `execute_command` on action "multi" with a
commands list runs every step in list order, each followed by the fixed
0.3 s pause; every step is itself a full `execute_command` call with its own
`try`/`except`, so a raising step returns normally (third conjunct) and all
remaining steps still appear in the trace, in order. -/
theorem c2_multi_sequences_all_steps (env : DevEnv) (h : env.atvPresent = true)
    (kwargs : List (String × JVal)) (cmds : List JVal)
    (hcmd : jGet kwargs "commands" = some (JVal.arr cmds)) :
    (execute_command env (JVal.str "multi") kwargs).1 =
      Eff.execCmd (JVal.str "multi") kwargs ::
        ((cmds.map (fun c => (execute_command env c []).1 ++ [Eff.sleep 300])).flatten
          ++ [Eff.logInfo "Executed command"])
    ∧ (execute_command env (JVal.str "multi") kwargs).2 = none
    ∧ (∀ c ∈ cmds, (execute_command env c []).2 = none) := by
  refine ⟨by rw [exec_multi_unfold env h kwargs cmds hcmd],
    by rw [exec_multi_unfold env h kwargs cmds hcmd], ?_⟩
  intro c _
  exact exec_snd_none env c []

/-- All-`None` playing metadata. -/
def playing0 : Playing := ⟨none, none, none, none, none, none, none, none, none, none⟩

/-- A connected device environment where only the "play" call raises. -/
def devPlayRaises : DevEnv :=
  ⟨true, false, playing0, false, none, true, "PowerState.on", true, false, [], true,
   fun s => s == "play"⟩

/-- Witness for C2 at `["play", "select"]` with a raising "play": both
steps appear, and the raising step's call returns normally. -/
theorem c2_witness :
    (execute_command devPlayRaises (JVal.str "multi")
        [("commands", JVal.arr [JVal.str "play", JVal.str "select"])]).1 =
      [Eff.execCmd (JVal.str "multi") [("commands", JVal.arr [JVal.str "play", JVal.str "select"])],
       Eff.execCmd (JVal.str "play") [], Eff.devCall "play" none,
       Eff.logError "Error executing command: play failed", Eff.sleep 300,
       Eff.execCmd (JVal.str "select") [], Eff.devCall "select" none,
       Eff.logInfo "Executed command", Eff.sleep 300,
       Eff.logInfo "Executed command"]
    ∧ (execute_command devPlayRaises (JVal.str "play") []).2 = none := by
  have hplay : execute_command devPlayRaises (JVal.str "play") [] =
      ([Eff.execCmd (JVal.str "play") [], Eff.devCall "play" none,
        Eff.logError "Error executing command: play failed"], none) := by
    rw [execute_command, if_neg (by decide), if_neg (by decide), if_neg (by decide),
        if_neg (by decide), if_neg (by decide), if_neg (by decide), if_neg (by decide),
        if_neg (by decide), if_pos rfl]
    simp [rcCall, finish_cmd, devPlayRaises]
  have hselect : execute_command devPlayRaises (JVal.str "select") [] =
      ([Eff.execCmd (JVal.str "select") [], Eff.devCall "select" none,
        Eff.logInfo "Executed command"], none) := by
    rw [execute_command, if_neg (by decide), if_neg (by decide), if_neg (by decide),
        if_neg (by decide), if_neg (by decide), if_pos rfl]
    simp [rcCall, finish_cmd, devPlayRaises]
  have h := c2_multi_sequences_all_steps devPlayRaises rfl
    [("commands", JVal.arr [JVal.str "play", JVal.str "select"])]
    [JVal.str "play", JVal.str "select"] (by decide)
  refine ⟨?_, h.2.2 (JVal.str "play") (by simp)⟩
  rw [h.1]
  simp only [List.map_cons, List.map_nil]
  rw [hplay, hselect]
  simp

/-- C10: the per-step recursion of "multi" passes only the action name —
every step is invoked with empty kwargs (first conjunct), so parameter-
requiring steps ("launch_app", "play_url") and a nested "multi" perform no
device call, while the sequence around them still runs. -/
theorem c10_multi_steps_no_params (env : DevEnv) (h : env.atvPresent = true)
    (kwargs : List (String × JVal)) (cmds : List JVal)
    (hcmd : jGet kwargs "commands" = some (JVal.arr cmds)) :
    (execute_command env (JVal.str "multi") kwargs).1 =
      Eff.execCmd (JVal.str "multi") kwargs ::
        ((cmds.map (fun c => (execute_command env c []).1 ++ [Eff.sleep 300])).flatten
          ++ [Eff.logInfo "Executed command"])
    ∧ devCalls (execute_command env (JVal.str "launch_app") []).1 = []
    ∧ devCalls (execute_command env (JVal.str "play_url") []).1 = []
    ∧ devCalls (execute_command env (JVal.str "multi") []).1 = [] := by
  refine ⟨by rw [exec_multi_unfold env h kwargs cmds hcmd], ?_, ?_, ?_⟩
  · rw [execute_command, if_neg (by simp [h]),
        if_neg (by decide), if_neg (by decide), if_neg (by decide), if_neg (by decide),
        if_neg (by decide), if_neg (by decide), if_neg (by decide), if_neg (by decide),
        if_neg (by decide), if_neg (by decide), if_neg (by decide), if_neg (by decide),
        if_neg (by decide), if_neg (by decide), if_neg (by decide), if_neg (by decide),
        if_neg (by decide), if_pos rfl, if_neg (by simp [jGet, JVal.truthy])]
    simp [finish_cmd, devCalls]
  · rw [execute_command, if_neg (by simp [h]),
        if_neg (by decide), if_neg (by decide), if_neg (by decide), if_neg (by decide),
        if_neg (by decide), if_neg (by decide), if_neg (by decide), if_neg (by decide),
        if_neg (by decide), if_neg (by decide), if_neg (by decide), if_neg (by decide),
        if_neg (by decide), if_neg (by decide), if_neg (by decide), if_neg (by decide),
        if_neg (by decide), if_neg (by decide), if_pos rfl, if_neg (by simp [jGet, JVal.truthy])]
    simp [finish_cmd, devCalls]
  · rw [execute_command, if_neg (by simp [h]),
        if_neg (by decide), if_neg (by decide), if_neg (by decide), if_neg (by decide),
        if_neg (by decide), if_neg (by decide), if_neg (by decide), if_neg (by decide),
        if_neg (by decide), if_neg (by decide), if_neg (by decide), if_neg (by decide),
        if_neg (by decide), if_neg (by decide), if_neg (by decide), if_neg (by decide),
        if_neg (by decide), if_neg (by decide), if_neg (by decide), if_pos rfl,
        if_pos (by rfl)]
    simp [finish_cmd, devCalls, jGet, iterElems]

/-- Witness for C10 with a concrete environment and command list. -/
theorem c10_witness :
    devCalls (execute_command devPlayRaises (JVal.str "launch_app") []).1 = []
    ∧ devCalls (execute_command devPlayRaises (JVal.str "multi") []).1 = [] := by
  have h := c10_multi_steps_no_params devPlayRaises rfl
    [("commands", JVal.arr [])] [] (by decide)
  exact ⟨h.2.1, h.2.2.2⟩

/-- The fixed action catalogue of `execute_command` (lines 359-420). -/
def knownActions : List String :=
  ["up", "down", "left", "right", "select", "menu", "home",
   "play", "pause", "play_pause", "stop", "next", "previous",
   "turn_on", "turn_off", "wakeup", "suspend", "launch_app", "play_url", "multi"]

/-- C8: `execute_command` never lets an exception escape (first conjunct);
with no device session it only logs a warning and performs no device call;
and for any action outside the fixed catalogue it only logs a warning and
performs no device call. -/
theorem c8_execute_command_safety (env : DevEnv) (action : JVal)
    (kwargs : List (String × JVal)) :
    (execute_command env action kwargs).2 = none
    ∧ (env.atvPresent = false →
        (execute_command env action kwargs).1 =
          [Eff.execCmd action kwargs,
           Eff.logWarn "Apple TV not connected, cannot execute command"]
        ∧ devCalls (execute_command env action kwargs).1 = [])
    ∧ (env.atvPresent = true → (∀ s ∈ knownActions, action ≠ JVal.str s) →
        (execute_command env action kwargs).1 =
          [Eff.execCmd action kwargs, Eff.logWarn "Unknown action"]
        ∧ devCalls (execute_command env action kwargs).1 = []) := by
  refine ⟨exec_snd_none env action kwargs, ?_, ?_⟩
  · intro h
    rw [execute_command, if_pos (by simp [h])]
    simp [devCalls]
  · intro h hna
    rw [execute_command, if_neg (by simp [h]),
        if_neg (hna "up" (by decide)), if_neg (hna "down" (by decide)),
        if_neg (hna "left" (by decide)), if_neg (hna "right" (by decide)),
        if_neg (hna "select" (by decide)), if_neg (hna "menu" (by decide)),
        if_neg (hna "home" (by decide)), if_neg (hna "play" (by decide)),
        if_neg (hna "pause" (by decide)), if_neg (hna "play_pause" (by decide)),
        if_neg (hna "stop" (by decide)), if_neg (hna "next" (by decide)),
        if_neg (hna "previous" (by decide)), if_neg (hna "turn_on" (by decide)),
        if_neg (hna "turn_off" (by decide)), if_neg (hna "wakeup" (by decide)),
        if_neg (hna "suspend" (by decide)), if_neg (hna "launch_app" (by decide)),
        if_neg (hna "play_url" (by decide)), if_neg (hna "multi" (by decide))]
    simp [finish_cmd, devCalls]

/-- A device environment with no session object. -/
def devNoAtv : DevEnv :=
  ⟨false, false, playing0, false, none, false, "", false, false, [], false, fun _ => false⟩

/-- Witness for C8: a call with no session only warns; an unknown action
("zzz") only warns and performs no device call. -/
theorem c8_witness :
    (execute_command devNoAtv (JVal.str "play") []).1 =
      [Eff.execCmd (JVal.str "play") [],
       Eff.logWarn "Apple TV not connected, cannot execute command"]
    ∧ (execute_command devPlayRaises (JVal.str "zzz") []).1 =
      [Eff.execCmd (JVal.str "zzz") [], Eff.logWarn "Unknown action"]
    ∧ devCalls (execute_command devPlayRaises (JVal.str "zzz") []).1 = [] := by
  refine ⟨((c8_execute_command_safety devNoAtv (JVal.str "play") []).2.1 rfl).1, ?_, ?_⟩
  · exact ((c8_execute_command_safety devPlayRaises (JVal.str "zzz") []).2.2 rfl (by decide)).1
  · exact ((c8_execute_command_safety devPlayRaises (JVal.str "zzz") []).2.2 rfl (by decide)).2

theorem pubs_get_state (env : DevEnv) : pubs (get_state env).1 = [] := by
  unfold get_state get_state_try
  cases hA : env.atvPresent <;> cases hP : env.playingRaises <;> simp [hA, hP, pubs]

theorem pubs_get_apps (env : DevEnv) : pubs (get_apps env).1 = [] := by
  unfold get_apps get_apps_try
  cases hA : env.atvPresent <;> cases hH : env.hasApps <;> cases hR : env.appListRaises <;>
    simp [hA, hH, hR, pubs]

theorem pubs_mqtt_publish (m : MqttEnv) (topic payload : String) (retain : Bool) :
    pubs (mqtt_publish m topic payload retain).1 = [(topic, payload, retain)] := by
  unfold mqtt_publish
  cases hc : m.connected <;> cases hp : m.publishRaises <;> simp [hc, hp, pubs]

theorem pubs_logInfo (s : String) : pubs [Eff.logInfo s] = [] := by
  simp [pubs]

/-- C1: a dequeued message on the get topic whose payload is a JSON object
triggers publish calls exactly according to its `type` field (default
"all"): a non-retained state publish iff the value is "state" or "all", a
retained apps publish iff it is "apps" or "all", and no publish at all for
any other value; the published payloads are the serialized fetched state
and app list, and processing returns normally. -/
theorem c1_get_dispatch_publishes (cfg : Cfg) (m : MqttEnv) (env : DevEnv)
    (fields : List (String × JVal)) :
    pubs (task_command_handler_msg cfg m env cfg.topic_get (some (JVal.obj fields))).1 =
      (if jGetD fields "type" (JVal.str "all") = JVal.str "state"
          ∨ jGetD fields "type" (JVal.str "all") = JVal.str "all" then
        [(cfg.topic_state, dumps (JVal.obj (get_state env).2), false)]
      else [])
      ++ (if jGetD fields "type" (JVal.str "all") = JVal.str "apps"
          ∨ jGetD fields "type" (JVal.str "all") = JVal.str "all" then
        [(cfg.topic_apps, dumps (JVal.arr (get_apps env).2), true)]
      else [])
    ∧ (task_command_handler_msg cfg m env cfg.topic_get (some (JVal.obj fields))).2 = none := by
  simp only [task_command_handler_msg]
  rw [if_neg (topic_get_ne_set cfg)]
  simp only [if_true, if_pos rfl]
  constructor
  · split <;> split <;>
      simp [pubs_append, pubs_get_state, pubs_get_apps, pubs_mqtt_publish, pubs_logInfo]
  · trivial

theorem finish_cmd_head (action : JVal) (kwargs : List (String × JVal))
    (b : List Eff × Option String × Bool) :
    (finish_cmd action kwargs b).1.head? = some (Eff.execCmd action kwargs) := by
  rcases b with ⟨t, e, r⟩
  cases e <;> cases r <;> rfl

/-- Every `execute_command` trace starts with the call marker recording
the action and keyword arguments it was invoked with. -/
theorem execute_command_head (env : DevEnv) (a : JVal) (kw : List (String × JVal)) :
    (execute_command env a kw).1.head? = some (Eff.execCmd a kw) := by
  cases hA : env.atvPresent with
  | false => rw [execute_command, if_pos (by simp [hA])]; rfl
  | true =>
    rw [execute_command, if_neg (by simp [hA])]
    apply finish_cmd_head

/-- A concrete configuration and bus environment for counterexamples. -/
def cfg0 : Cfg := ⟨"appletv", 1, 10, 300⟩

def m0 : MqttEnv := ⟨true, false, 1⟩

/-- Counterexample to C4: a set-topic message whose object payload has no
`action` field is dropped with an empty effect trace — in particular no
warning is logged and no action executor call happens — while the claim
says the drop comes with a logged warning. -/
theorem c4_absent_action_silent_cex :
    task_command_handler_msg cfg0 m0 devPlayRaises cfg0.topic_set (some (JVal.obj [])) =
      ([], none) := by
  decide

/-- C4 as amended: a set-topic object payload with no `action` field — or
with a falsy `action` value — is dropped silently (empty trace, no warning,
no executor call); when the `action` value is truthy, `execute_command` is
invoked with that action and the remaining fields of the object as
parameters (the trace is exactly the executor's, headed by its call
marker). -/
theorem c4_set_dispatch_amended (cfg : Cfg) (m : MqttEnv) (env : DevEnv)
    (fields : List (String × JVal)) :
    ((jPop fields "action").1 = none →
      task_command_handler_msg cfg m env cfg.topic_set (some (JVal.obj fields)) = ([], none))
    ∧ (∀ a, (jPop fields "action").1 = some a → a.truthy = false →
      task_command_handler_msg cfg m env cfg.topic_set (some (JVal.obj fields)) = ([], none))
    ∧ (∀ a, (jPop fields "action").1 = some a → a.truthy = true →
      task_command_handler_msg cfg m env cfg.topic_set (some (JVal.obj fields)) =
        execute_command env a (jPop fields "action").2
      ∧ (task_command_handler_msg cfg m env cfg.topic_set (some (JVal.obj fields))).1.head? =
          some (Eff.execCmd a (jPop fields "action").2)) := by
  refine ⟨?_, ?_, ?_⟩
  · intro h
    simp only [jPop] at h
    simp only [task_command_handler_msg, jPop, if_pos rfl]
    rw [h]
    simp
  · intro a h ht
    simp only [jPop] at h
    simp only [task_command_handler_msg, jPop, if_pos rfl]
    rw [h]
    simp [ht]
  · intro a h ht
    simp only [jPop] at h
    have he : task_command_handler_msg cfg m env cfg.topic_set (some (JVal.obj fields)) =
        execute_command env a (jPop fields "action").2 := by
      simp only [task_command_handler_msg, jPop, if_pos rfl]
      rw [h]
      simp [ht]
    exact ⟨he, by rw [he]; exact execute_command_head env a _⟩

/-- Witness for the amended C4: a truthy action ("play") with one extra
field is dispatched to the executor with that remaining field. -/
theorem c4_witness :
    task_command_handler_msg cfg0 m0 devPlayRaises cfg0.topic_set
        (some (JVal.obj [("action", JVal.str "play"), ("x", JVal.num 1)])) =
      execute_command devPlayRaises (JVal.str "play")
        (jPop [("action", JVal.str "play"), ("x", JVal.num 1)] "action").2
    ∧ (task_command_handler_msg cfg0 m0 devPlayRaises cfg0.topic_set
        (some (JVal.obj [("action", JVal.str "play"), ("x", JVal.num 1)]))).1.head? =
      some (Eff.execCmd (JVal.str "play")
        (jPop [("action", JVal.str "play"), ("x", JVal.num 1)] "action").2) :=
  (c4_set_dispatch_amended cfg0 m0 devPlayRaises
      [("action", JVal.str "play"), ("x", JVal.num 1)]).2.2
    (JVal.str "play") (by decide) (by decide)

/-- The retained-flag discipline for one topic/flag pair: retained on the
availability and apps topics, non-retained on the state topic. -/
def topicRetainOk (cfg : Cfg) (t : String) (r : Bool) : Bool :=
  (if t = cfg.topic_availability then r else true)
  && (if t = cfg.topic_apps then r else true)
  && (if t = cfg.topic_state then !r else true)

/-- The retained-flag discipline for one effect: every publish call, raw
send and last-will registration satisfies `topicRetainOk`. -/
def retainOk (cfg : Cfg) : Eff → Bool
  | .pub t _ r => topicRetainOk cfg t r
  | .send t _ _ r => topicRetainOk cfg t r
  | .willSet t _ _ r => topicRetainOk cfg t r
  | _ => true

theorem topicRetainOk_avail (cfg : Cfg) : topicRetainOk cfg cfg.topic_availability true = true := by
  unfold topicRetainOk
  rw [if_pos rfl, if_neg (topic_availability_ne_apps cfg),
      if_neg (topic_availability_ne_state cfg)]
  rfl

theorem topicRetainOk_apps (cfg : Cfg) : topicRetainOk cfg cfg.topic_apps true = true := by
  unfold topicRetainOk
  rw [if_neg (topic_apps_ne_availability cfg), if_pos rfl,
      if_neg (topic_apps_ne_state cfg)]
  rfl

theorem topicRetainOk_state (cfg : Cfg) : topicRetainOk cfg cfg.topic_state false = true := by
  unfold topicRetainOk
  rw [if_neg (topic_state_ne_availability cfg), if_neg (topic_state_ne_apps cfg), if_pos rfl]
  rfl

theorem all_retainOk_mqtt_publish (cfg : Cfg) (m : MqttEnv) (topic payload : String)
    (retain : Bool) (h : topicRetainOk cfg topic retain = true) :
    (mqtt_publish m topic payload retain).1.all (retainOk cfg) = true := by
  unfold mqtt_publish
  cases hc : m.connected <;> cases hp : m.publishRaises <;> simp [hc, hp, retainOk, h]

theorem all_retainOk_get_state (cfg : Cfg) (env : DevEnv) :
    (get_state env).1.all (retainOk cfg) = true := by
  unfold get_state get_state_try
  cases hA : env.atvPresent <;> cases hP : env.playingRaises <;> simp [hA, hP, retainOk]

theorem all_retainOk_get_apps (cfg : Cfg) (env : DevEnv) :
    (get_apps env).1.all (retainOk cfg) = true := by
  unfold get_apps get_apps_try
  cases hA : env.atvPresent <;> cases hH : env.hasApps <;> cases hR : env.appListRaises <;>
    simp [hA, hH, hR, retainOk]

/-- C6: the retained-flag discipline — availability and apps publishes are
retained, state publishes are not — holds for every effect of the connect
callback, both periodic loop bodies, the on-demand get handling, the
graceful shutdown sequence, the fatal-connect early exit, and the last-will
registration. -/
theorem c6_retain_flags (cfg : Cfg) (m : MqttEnv) (env : DevEnv) (rc : Nat)
    (fields : List (String × JVal)) :
    (on_mqtt_connect cfg m rc).all (retainOk cfg) = true
    ∧ (task_state_update_iter cfg m env).all (retainOk cfg) = true
    ∧ (task_apps_update_iter cfg m env).all (retainOk cfg) = true
    ∧ (task_command_handler_msg cfg m env cfg.topic_get
        (some (JVal.obj fields))).1.all (retainOk cfg) = true
    ∧ (shutdown_sequence cfg m env).all (retainOk cfg) = true
    ∧ (appletv_connect_failure_shutdown cfg m).all (retainOk cfg) = true
    ∧ retainOk cfg (setup_mqtt_will cfg m) = true := by
  refine ⟨?_, ?_, ?_, ?_, ?_, ?_, ?_⟩
  · unfold on_mqtt_connect
    split <;> simp [retainOk, topicRetainOk_avail]
  · unfold task_state_update_iter
    simp [List.all_append, all_retainOk_get_state,
      all_retainOk_mqtt_publish cfg m _ _ _ (topicRetainOk_state cfg), retainOk]
  · unfold task_apps_update_iter
    simp [List.all_append, all_retainOk_get_apps,
      all_retainOk_mqtt_publish cfg m _ _ _ (topicRetainOk_apps cfg), retainOk]
  · simp only [task_command_handler_msg]
    rw [if_neg (topic_get_ne_set cfg)]
    simp only [if_true, if_pos rfl]
    split <;> split <;>
      simp [List.all_append, all_retainOk_get_state, all_retainOk_get_apps,
        all_retainOk_mqtt_publish cfg m _ _ _ (topicRetainOk_state cfg),
        all_retainOk_mqtt_publish cfg m _ _ _ (topicRetainOk_apps cfg), retainOk]
  · unfold shutdown_sequence
    cases hA : env.atvPresent <;>
      simp [List.all_append, hA, retainOk,
        all_retainOk_mqtt_publish cfg m _ _ _ (topicRetainOk_avail cfg)]
  · unfold appletv_connect_failure_shutdown
    simp [retainOk, topicRetainOk_avail]
  · unfold setup_mqtt_will
    simp [retainOk, topicRetainOk_avail]

/-- Whether the first list occurs as a (not necessarily contiguous)
subsequence of the second, in order. -/
def subseq [DecidableEq α] : List α → List α → Bool
  | [], _ => true
  | _ :: _, [] => false
  | a :: as, b :: bs => if a = b then subseq as bs else subseq (a :: as) bs

/-- C9: in every graceful shutdown the coordinator cancels the three
scheduler tasks and awaits them, and only then issues the "offline"
publish call on the availability topic (retained) — which is never skipped
on this path — before the device session close (when a session exists),
which comes before the bus disconnect; when the bus client is connected the
actual send likewise lands between the task join and the disconnect. -/
theorem c9_shutdown_order (cfg : Cfg) (m : MqttEnv) (env : DevEnv) :
    Eff.pub cfg.topic_availability "offline" true ∈ shutdown_sequence cfg m env
    ∧ subseq [Eff.cancelTask 0, Eff.cancelTask 1, Eff.cancelTask 2, Eff.awaitTasks,
        Eff.pub cfg.topic_availability "offline" true, Eff.mqttDisconnect]
        (shutdown_sequence cfg m env) = true
    ∧ (env.atvPresent = true →
        subseq [Eff.awaitTasks, Eff.pub cfg.topic_availability "offline" true,
          Eff.atvClose, Eff.mqttDisconnect] (shutdown_sequence cfg m env) = true)
    ∧ (m.connected = true →
        subseq [Eff.awaitTasks, Eff.send cfg.topic_availability "offline" m.qos true,
          Eff.mqttDisconnect] (shutdown_sequence cfg m env) = true) := by
  cases hc : m.connected <;> cases hp : m.publishRaises <;> cases hA : env.atvPresent <;>
    simp [shutdown_sequence, mqtt_publish, subseq, hc, hp, hA]

/-- Witness for C9 at a concrete environment with a session and a
connected bus client. -/
theorem c9_witness :
    subseq [Eff.awaitTasks, Eff.pub cfg0.topic_availability "offline" true,
      Eff.atvClose, Eff.mqttDisconnect] (shutdown_sequence cfg0 m0 devPlayRaises) = true
    ∧ subseq [Eff.awaitTasks, Eff.send cfg0.topic_availability "offline" m0.qos true,
      Eff.mqttDisconnect] (shutdown_sequence cfg0 m0 devPlayRaises) = true :=
  ⟨(c9_shutdown_order cfg0 m0 devPlayRaises).2.2.1 rfl,
   (c9_shutdown_order cfg0 m0 devPlayRaises).2.2.2 rfl⟩
